import Mathlib

/-!
Verification of the k8s-gateway network-device access gateway.

Go strings are embedded as lists of characters; Go slices of strings as
lists of such lists. Go maps keyed by strings are embedded as association
lists. Each definition below is a direct translation of the corresponding
Go function from the repository; fallible Go functions returning
(value, error) pairs are embedded as Except values.
-/

set_option autoImplicit false

deriving instance DecidableEq for Except

/-- Embedding of a Go string as a list of characters. -/
abbrev GoStr := List Char

/-- Converts a Lean string literal to its GoStr embedding. -/
def gstr (s : String) : GoStr := s.data

/-- Embedding of strings.Split with a one-character separator: Go
semantics, so splitting the empty string yields one empty field and the
result is never the empty list. -/
def splitSep (c : Char) : GoStr → List GoStr
  | [] => [[]]
  | a :: rest =>
    if a = c then
      [] :: splitSep c rest
    else
      match splitSep c rest with
      | [] => [[a]]
      | r :: rs => (a :: r) :: rs

theorem splitSep_ne_nil (c : Char) (s : GoStr) : splitSep c s ≠ [] := by
  cases s with
  | nil => simp [splitSep]
  | cons a rest =>
    by_cases h : a = c
    · simp [splitSep, h]
    · simp only [splitSep, if_neg h]
      cases splitSep c rest <;> simp

theorem headI_splitSep (c : Char) (s : GoStr) :
    (splitSep c s).headI = s.takeWhile (fun a => a != c) := by
  induction s with
  | nil => rfl
  | cons a rest ih =>
    by_cases h : a = c
    · simp [splitSep, h, List.takeWhile_cons]
    · simp only [splitSep, if_neg h]
      cases h2 : splitSep c rest with
      | nil => exact absurd h2 (splitSep_ne_nil c rest)
      | cons r rs =>
        rw [h2] at ih
        simp [List.takeWhile_cons, h, ← ih]

theorem splitSep_not_mem (c : Char) (s : GoStr) (h : c ∉ s) :
    splitSep c s = [s] := by
  induction s with
  | nil => rfl
  | cons a rest ih =>
    have ha : a ≠ c := fun hac => h (hac ▸ List.mem_cons_self a rest)
    have hrest : c ∉ rest := fun hm => h (List.mem_cons_of_mem a hm)
    simp [splitSep, ha, ih hrest]

theorem splitSep_append (c : Char) (a rest : GoStr) (h : c ∉ a) :
    splitSep c (a ++ c :: rest) = a :: splitSep c rest := by
  induction a with
  | nil => simp [splitSep]
  | cons x xs ih =>
    have hx : x ≠ c := fun hxc => h (hxc ▸ List.mem_cons_self x xs)
    have hxs : c ∉ xs := fun hm => h (List.mem_cons_of_mem x hm)
    have := ih hxs
    simp only [List.cons_append, splitSep, if_neg hx, List.append_eq, this]

/-- Embedding of the DeviceConfig struct of internal/config/config.go.
The gnmiPort field carries the gNMI (telemetry) port of the device: it is
the GNMIPort field that the gNMI proxy (getBackendClient) and the test
files of the repository read from config.DeviceConfig. -/
structure DeviceConfig where
  hostname : GoStr
  sshPort : Int
  telnetPort : Int
  netconfPort : Int
  gnmiPort : Int
  description : GoStr
deriving DecidableEq, Repr

/-- Embedding of the Config struct: the Go devices map is embedded as an
association list from device name to device configuration. -/
structure Config where
  devices : List (GoStr × DeviceConfig)
deriving DecidableEq, Repr

/-- Lookup in the devices map, mirroring a Go map index expression with
its ok flag: returns some value when the key is present. -/
def lookupDevice : List (GoStr × DeviceConfig) → GoStr → Option DeviceConfig
  | [], _ => none
  | (k, v) :: rest, name => if k = name then some v else lookupDevice rest name

/-- Errors produced by GetDeviceByFQDN, one constructor per fmt.Errorf
site in the Go source. -/
inductive ResolveErr where
  | invalidFQDN (fqdn : GoStr)
  | notFound (deviceName : GoStr)
deriving DecidableEq, Repr

/-- Rendering of a ResolveErr to the Go error string. -/
def ResolveErr.render : ResolveErr → GoStr
  | .invalidFQDN f => gstr ("invalid FQDN format: ") ++ f
  | .notFound n => gstr ("device not found: ") ++ n

/-- Embedding of Config.GetDeviceByFQDN of internal/config/config.go:
splits the FQDN on dots, takes the first part as the device name, and
looks it up in the devices map. The length guard mirrors the Go
`len(parts) < 1` check verbatim. -/
def getDeviceByFQDN (c : Config) (fqdn : GoStr) :
    Except ResolveErr (DeviceConfig × GoStr) :=
  let parts := splitSep ('.') fqdn
  if parts.length < 1 then
    .error (.invalidFQDN fqdn)
  else
    let deviceName := parts.headI
    match lookupDevice c.devices deviceName with
    | none => .error (.notFound deviceName)
    | some device => .ok (device, deviceName)

/-- Spec-side notion used by the claims: the first dot-separated label of
an FQDN, that is, the longest dot-free prefix. -/
def specFirstLabel (fqdn : GoStr) : GoStr :=
  fqdn.takeWhile (fun a => a != ('.'))

theorem getDeviceByFQDN_eq (c : Config) (fqdn : GoStr) :
    getDeviceByFQDN c fqdn =
      match lookupDevice c.devices (specFirstLabel fqdn) with
      | none => .error (.notFound (specFirstLabel fqdn))
      | some device => .ok (device, specFirstLabel fqdn) := by
  have hne := splitSep_ne_nil ('.') fqdn
  have hlen : ¬ (splitSep ('.') fqdn).length < 1 := by
    cases h : splitSep ('.') fqdn with
    | nil => exact absurd h hne
    | cons r rs => simp [h]
  simp only [getDeviceByFQDN, if_neg hlen, headI_splitSep, specFirstLabel]

/-- Example device entry used by concrete witnesses and counterexamples. -/
def devEx : DeviceConfig :=
  { hostname := gstr ("10.0.1.10"), sshPort := 22, telnetPort := 23,
    netconfPort := 830, gnmiPort := 57400, description := gstr ("Router 1") }

/-- Example registry used by concrete witnesses and counterexamples. -/
def cfgEx : Config :=
  { devices := [(gstr ("router1"), devEx), (gstr ("srl1"), devEx)] }

/-- C1: registry resolution is determined by the first dot-separated label
of the FQDN only: for a FQDN with first label x, resolution returns the
entry stored under x, paired with x, exactly when x is a key of the
registry, fails with a not-found error otherwise, and two FQDNs with the
same first label resolve identically. -/
theorem resolve_determined_by_first_label (c : Config) (fqdn : GoStr) :
    (∀ d, getDeviceByFQDN c fqdn = .ok (d, specFirstLabel fqdn) ↔
        lookupDevice c.devices (specFirstLabel fqdn) = some d) ∧
    (lookupDevice c.devices (specFirstLabel fqdn) = none →
        getDeviceByFQDN c fqdn = .error (.notFound (specFirstLabel fqdn))) ∧
    (∀ fqdn2, specFirstLabel fqdn = specFirstLabel fqdn2 →
        getDeviceByFQDN c fqdn = getDeviceByFQDN c fqdn2) := by
  refine ⟨?_, ?_, ?_⟩
  · intro d
    rw [getDeviceByFQDN_eq]
    cases h : lookupDevice c.devices (specFirstLabel fqdn) with
    | none => simp
    | some v => simp [eq_comm]
  · intro h
    rw [getDeviceByFQDN_eq, h]
  · intro fqdn2 h
    rw [getDeviceByFQDN_eq, getDeviceByFQDN_eq, h]

/-- Witness for C1 at concrete inputs: a registered first label resolves
to its entry, an unregistered one fails with not-found. -/
theorem resolve_determined_by_first_label_witness :
    getDeviceByFQDN cfgEx (gstr ("router1.myCustomer.example.com")) =
      .ok (devEx, gstr ("router1")) ∧
    getDeviceByFQDN cfgEx (gstr ("nope.example.com")) =
      .error (.notFound (gstr ("nope"))) := by
  constructor
  · have h := ((resolve_determined_by_first_label cfgEx
      (gstr ("router1.myCustomer.example.com"))).1 devEx).mpr (by decide)
    rw [show specFirstLabel (gstr ("router1.myCustomer.example.com")) =
      gstr ("router1") from by decide] at h
    exact h
  · have h := (resolve_determined_by_first_label cfgEx
      (gstr ("nope.example.com"))).2.1 (by decide)
    rw [show specFirstLabel (gstr ("nope.example.com")) =
      gstr ("nope") from by decide] at h
    exact h

/-- C4: resolving the empty FQDN does NOT fail with the invalid-format
error: strings.Split always returns at least one element, so the Go guard
len(parts) < 1 is unreachable; the empty FQDN yields the empty device
name, which is looked up like any other and here fails with not-found. -/
theorem resolve_empty_is_notFound :
    getDeviceByFQDN cfgEx (gstr ("")) = .error (.notFound (gstr (""))) ∧
    ∀ f, getDeviceByFQDN cfgEx (gstr ("")) ≠ .error (.invalidFQDN f) := by
  constructor
  · decide
  · intro f h
    rw [show getDeviceByFQDN cfgEx (gstr ("")) =
      .error (.notFound (gstr (""))) from by decide] at h
    simp at h

/-- Result of parsing a gNMI target string: device FQDN, backend user
name and backend password. -/
structure GnmiTarget where
  fqdn : GoStr
  username : GoStr
  password : GoStr
deriving DecidableEq, Repr

/-- Embedding of Server.parseTarget of the gNMI proxy: splits the target
string on colons; the first field is the FQDN, the second (when present)
overrides the default user admin, the third (when present) overrides the
default password NokiaSrl1!. The Go function always returns a nil error. -/
def parseTarget (target : GoStr) : Except GoStr GnmiTarget :=
  let parts := splitSep (':') target
  let fqdn := parts.headI
  let username := if 2 ≤ parts.length then parts.getI 1 else gstr ("admin")
  let password := if 3 ≤ parts.length then parts.getI 2 else gstr ("NokiaSrl1!")
  .ok { fqdn := fqdn, username := username, password := password }

/-- C8: a target of the shape fqdn, fqdn:user or fqdn:user:secret (each
field colon-free) parses to the given fields, the user defaulting to
admin and the secret to the default secret NokiaSrl1! when absent, and
present fields returned verbatim. -/
theorem parseTarget_shape (f u s : GoStr)
    (hf : (':') ∉ f) (hu : (':') ∉ u) (hs : (':') ∉ s) :
    parseTarget f = .ok ⟨f, gstr ("admin"), gstr ("NokiaSrl1!")⟩ ∧
    parseTarget (f ++ (':') :: u) = .ok ⟨f, u, gstr ("NokiaSrl1!")⟩ ∧
    parseTarget (f ++ (':') :: (u ++ (':') :: s)) = .ok ⟨f, u, s⟩ := by
  refine ⟨?_, ?_, ?_⟩
  · simp [parseTarget, splitSep_not_mem (':') f hf]
  · simp [parseTarget, splitSep_append (':') f u hf, splitSep_not_mem (':') u hu,
      List.getI]
  · simp [parseTarget, splitSep_append (':') f _ hf, splitSep_append (':') u s hu,
      splitSep_not_mem (':') s hs, List.getI]

/-- Witness for C8 at a concrete target string with all three fields. -/
theorem parseTarget_shape_witness :
    parseTarget (gstr ("srl1.example.com:admin:pw")) =
      .ok ⟨gstr ("srl1.example.com"), gstr ("admin"), gstr ("pw")⟩ := by
  have h := (parseTarget_shape (gstr ("srl1.example.com")) (gstr ("admin"))
    (gstr ("pw")) (by decide) (by decide) (by decide)).2.2
  rw [show gstr ("srl1.example.com") ++ (':') ::
      (gstr ("admin") ++ (':') :: gstr ("pw")) =
      gstr ("srl1.example.com:admin:pw") from by decide] at h
  exact h

/-- C10: parseTarget is total and truncates extra fields: every input
parses without error to a target whose FQDN is the text before the first
colon; the empty string parses to the empty FQDN with both defaults; and
with colon-free f, u, a, any extra colon-separated tail b after a third
field is discarded, so a secret containing a colon is cut at that colon. -/
theorem parseTarget_total_truncates :
    (∀ t : GoStr, ∃ u s, parseTarget t =
      .ok ⟨t.takeWhile (fun a => a != (':')), u, s⟩) ∧
    (parseTarget (gstr ("")) =
      .ok ⟨gstr (""), gstr ("admin"), gstr ("NokiaSrl1!")⟩) ∧
    (∀ f u a b : GoStr, (':') ∉ f → (':') ∉ u → (':') ∉ a →
      parseTarget (f ++ (':') :: (u ++ (':') :: (a ++ (':') :: b))) =
        .ok ⟨f, u, a⟩) := by
  refine ⟨?_, by decide, ?_⟩
  · intro t
    refine ⟨if 2 ≤ (splitSep (':') t).length then (splitSep (':') t).getI 1
        else gstr ("admin"),
      if 3 ≤ (splitSep (':') t).length then (splitSep (':') t).getI 2
        else gstr ("NokiaSrl1!"), ?_⟩
    simp [parseTarget, headI_splitSep]
  · intro f u a b hf hu ha
    simp [parseTarget, splitSep_append (':') f _ hf, splitSep_append (':') u _ hu,
      splitSep_append (':') a b ha, List.getI]

/-- Witness for C10 at a concrete input whose secret field contains a
colon: the tail after the colon is discarded. -/
theorem parseTarget_total_truncates_witness :
    parseTarget (gstr ("srl1:bob:top:extra")) =
      .ok ⟨gstr ("srl1"), gstr ("bob"), gstr ("top")⟩ := by
  have h := (parseTarget_total_truncates).2.2 (gstr ("srl1")) (gstr ("bob"))
    (gstr ("top")) (gstr ("extra")) (by decide) (by decide) (by decide)
  rw [show gstr ("srl1") ++ (':') :: (gstr ("bob") ++ (':') ::
      (gstr ("top") ++ (':') :: gstr ("extra"))) =
      gstr ("srl1:bob:top:extra") from by decide] at h
  exact h


/-- Embedding of bytes.Contains: whether pat occurs as a contiguous
substring of s. -/
def bytesContains (s pat : GoStr) : Bool := decide (pat <:+: s)

/-- Substring the config-protocol adapter looks for before wrapping. -/
def rpcTag : GoStr := ("<rpc").toList

/-- Hello envelope sent first by ExecuteNetconfCommand. -/
def helloMsg : GoStr :=
  gstr ("<?xml version=\"1.0\" encoding=\"UTF-8\"?>\n<hello xmlns=\"urn:ietf:params:xml:ns:netconf:base:1.0\">\n  <capabilities>\n    <capability>urn:ietf:params:netconf:base:1.0</capability>\n  </capabilities>\n</hello>]]>]]>")

/-- Close-session envelope sent last by ExecuteNetconfCommand. -/
def closeSessionMsg : GoStr :=
  gstr ("<?xml version=\"1.0\" encoding=\"UTF-8\"?>\n<rpc message-id=\"2\" xmlns=\"urn:ietf:params:xml:ns:netconf:base:1.0\">\n  <close-session/>\n</rpc>]]>]]>")

/-- RPC payload construction of ExecuteNetconfCommand: the command is
forwarded verbatim when it already contains the substring &lt;rpc, and is
otherwise wrapped by the Sprintf with the XML declaration, the rpc
envelope and the trailing frame delimiter. -/
def netconfPayload (command : GoStr) : GoStr :=
  if bytesContains command rpcTag then
    command
  else
    gstr ("<?xml version=\"1.0\" encoding=\"UTF-8\"?>\n<rpc message-id=\"1\" xmlns=\"urn:ietf:params:xml:ns:netconf:base:1.0\">\n")
      ++ command ++ gstr ("\n</rpc>]]>]]>")

/-- Sequence of messages ExecuteNetconfCommand writes to the backend
after the subsystem is started: hello, the RPC payload, close-session. -/
def netconfWrites (command : GoStr) : List GoStr :=
  [helloMsg, netconfPayload command, closeSessionMsg]

/-- C9: the RPC payload written to the backend by the config-protocol
adapter is the body verbatim whenever the body contains the substring
&lt;rpc, and otherwise is the body wrapped in the rpc message-id 1
envelope (preceded by the XML declaration) with the frame delimiter
appended; in the wrapped case the payload ends with the delimiter. -/
theorem netconf_payload_spec (command : GoStr) :
    (bytesContains command rpcTag = true →
      netconfWrites command = [helloMsg, command, closeSessionMsg]) ∧
    (bytesContains command rpcTag = false →
      netconfWrites command =
        [helloMsg,
          gstr ("<?xml version=\"1.0\" encoding=\"UTF-8\"?>\n<rpc message-id=\"1\" xmlns=\"urn:ietf:params:xml:ns:netconf:base:1.0\">\n")
            ++ command ++ gstr ("\n</rpc>]]>]]>"),
          closeSessionMsg] ∧
      gstr ("]]>]]>") <:+ netconfPayload command) := by
  constructor
  · intro h
    simp [netconfWrites, netconfPayload, h]
  · intro h
    refine ⟨by simp [netconfWrites, netconfPayload, h], ?_⟩
    have hpay : netconfPayload command =
        gstr ("<?xml version=\"1.0\" encoding=\"UTF-8\"?>\n<rpc message-id=\"1\" xmlns=\"urn:ietf:params:xml:ns:netconf:base:1.0\">\n")
          ++ command ++ gstr ("\n</rpc>]]>]]>") := by
      simp [netconfPayload, h]
    have hsplit : gstr ("\n</rpc>]]>]]>") =
        gstr ("\n</rpc>") ++ gstr ("]]>]]>") := by decide
    rw [hpay, hsplit, ← List.append_assoc]
    exact List.suffix_append _ _

/-- Witness for C9 at concrete bodies: a bare filter body is wrapped and
a body already carrying an rpc element passes through verbatim. -/
theorem netconf_payload_spec_witness :
    netconfPayload (gstr ("<get-config/>")) =
      gstr ("<?xml version=\"1.0\" encoding=\"UTF-8\"?>\n<rpc message-id=\"1\" xmlns=\"urn:ietf:params:xml:ns:netconf:base:1.0\">\n<get-config/>\n</rpc>]]>]]>") ∧
    netconfPayload (gstr ("<rpc message-id=\"9\"><get/></rpc>]]>]]>")) =
      gstr ("<rpc message-id=\"9\"><get/></rpc>]]>]]>") := by
  constructor
  · have h := ((netconf_payload_spec (gstr ("<get-config/>"))).2 (by decide)).1
    simp only [netconfWrites, List.cons.injEq] at h
    rw [h.2.1]
    decide
  · have h := (netconf_payload_spec
      (gstr ("<rpc message-id=\"9\"><get/></rpc>]]>]]>"))).1 (by decide)
    simp only [netconfWrites, List.cons.injEq] at h
    rw [h.2.1]

/-- Embedding of the protobuf CommandRequest message (session id elided:
the server never reads it). -/
structure CommandRequest where
  fqdn : GoStr
  username : GoStr
  password : GoStr
  command : GoStr
  protocol : GoStr
deriving DecidableEq, Repr

/-- Embedding of the protobuf CommandResponse message. -/
structure CommandResponse where
  output : GoStr
  error : GoStr
  exitCode : Int
deriving DecidableEq, Repr

/-- Status codes of the google.golang.org/grpc/codes package used by the
gateway. -/
inductive RpcCode where
  | invalidArgument
  | notFound
  | unavailable
  | internalErr
deriving DecidableEq, Repr

/-- One structured log line: its WithFields map (association list in
field order) and its message. A WithError call contributes the single
field error. -/
structure LogEntry where
  fields : List (String × GoStr)
  message : String
deriving DecidableEq, Repr

/-- Abstraction of the three backend protocol adapters
(ExecuteSSHCommand, ExecuteTelnetCommand, ExecuteNetconfCommand): each
maps hostname, port, username, password and command to the output string
and the optional execution error. The dispatcher is verified for every
backend behavior. -/
structure Backend where
  ssh : GoStr → Int → GoStr → GoStr → GoStr → GoStr × Option GoStr
  telnet : GoStr → Int → GoStr → GoStr → GoStr → GoStr × Option GoStr
  netconf : GoStr → Int → GoStr → GoStr → GoStr → GoStr × Option GoStr

/-- Record of one adapter invocation with the exact arguments the server
passes, one constructor per proxy.Execute call site. -/
inductive AdapterCall where
  | ssh (hostname : GoStr) (port : Int) (username password command : GoStr)
  | telnet (hostname : GoStr) (port : Int) (username password command : GoStr)
  | netconf (hostname : GoStr) (port : Int) (username password command : GoStr)
deriving DecidableEq, Repr

/-- Runs one recorded adapter call against a backend. -/
def Backend.run (B : Backend) : AdapterCall → GoStr × Option GoStr
  | .ssh h p u pw c => B.ssh h p u pw c
  | .telnet h p u pw c => B.telnet h p u pw c
  | .netconf h p u pw c => B.netconf h p u pw c

/-- Result of one RPC together with the log lines emitted and the
adapter calls made while serving it. -/
structure ExecOutcome where
  result : Except (RpcCode × GoStr) CommandResponse
  logs : List LogEntry
  calls : List AdapterCall
deriving DecidableEq, Repr

/-- Adapter selection of Server.ExecuteCommand: the switch on the
protocol tag, mapping ssh and the empty tag to the shell adapter, telnet
to the line adapter, netconf to the config adapter, and anything else
(the default case) to none. -/
def selectCall (device : DeviceConfig) (req : CommandRequest) :
    Option AdapterCall :=
  if req.protocol = gstr ("ssh") ∨ req.protocol = [] then
    some (.ssh device.hostname device.sshPort req.username req.password
      req.command)
  else if req.protocol = gstr ("telnet") then
    some (.telnet device.hostname device.telnetPort req.username req.password
      req.command)
  else if req.protocol = gstr ("netconf") then
    some (.netconf device.hostname device.netconfPort req.username
      req.password req.command)
  else
    none

/-- Embedding of Server.ExecuteCommand of internal/grpc/server.go: entry
log, the four validation checks in order, registry resolution, the
protocol switch, one adapter call, and the response assembly with its
success or failure log. -/
def executeCommand (cfg : Config) (B : Backend) (req : CommandRequest) :
    ExecOutcome :=
  let entryLog : LogEntry :=
    { fields := [("fqdn", req.fqdn), ("username", req.username),
        ("protocol", req.protocol), ("command", req.command)],
      message := "Received command execution request" }
  if req.fqdn = [] then
    { result := .error (.invalidArgument, gstr ("FQDN is required")),
      logs := [entryLog], calls := [] }
  else if req.username = [] then
    { result := .error (.invalidArgument, gstr ("username is required")),
      logs := [entryLog], calls := [] }
  else if req.password = [] then
    { result := .error (.invalidArgument, gstr ("password is required")),
      logs := [entryLog], calls := [] }
  else if req.command = [] then
    { result := .error (.invalidArgument, gstr ("command is required")),
      logs := [entryLog], calls := [] }
  else
    match getDeviceByFQDN cfg req.fqdn with
    | .error e =>
      { result := .error (.notFound, e.render),
        logs := [entryLog,
          { fields := [("error", e.render)],
            message := "Failed to get device config" }],
        calls := [] }
    | .ok (device, deviceName) =>
      let routeLog : LogEntry :=
        { fields := [("device", deviceName), ("hostname", device.hostname)],
          message := "Routing to device" }
      match selectCall device req with
      | none =>
        { result := .error (.invalidArgument,
            gstr ("unsupported protocol: ") ++ req.protocol),
          logs := [entryLog, routeLog], calls := [] }
      | some call =>
        let r := B.run call
        { result := .ok (match r.2 with
            | some execErr => { output := r.1, error := execErr, exitCode := 1 }
            | none => { output := r.1, error := [], exitCode := 0 }),
          logs := [entryLog, routeLog,
            match r.2 with
            | some execErr =>
              { fields := [("error", execErr)],
                message := "Command execution failed" }
            | none =>
              { fields := [], message := "Command executed successfully" }],
          calls := [call] }

/-- Session state captured by Server.StreamCommand from the first inbound
message: the resolved device, its name, and the credentials and protocol
bound for the lifetime of the stream. -/
structure StreamState where
  device : DeviceConfig
  deviceName : GoStr
  username : GoStr
  password : GoStr
  protocol : GoStr
deriving DecidableEq, Repr

/-- One event observed by the StreamCommand receive loop: a received
request (with the outcome the transport would give to the attempt to
send the corresponding response), end of stream, or a receive error. -/
inductive StreamEv where
  | msg (req : CommandRequest) (sendErr : Option GoStr)
  | eof
  | recvErr (e : GoStr)
deriving DecidableEq, Repr

/-- Return value of Server.StreamCommand: nil on client end-of-stream, a
raw transport error from Recv or Send, a gRPC status error, or blocked
when the event list runs out with the loop still waiting. -/
inductive StreamResult where
  | ok
  | recvFailed (e : GoStr)
  | sendFailed (e : GoStr)
  | rpcError (code : RpcCode) (msg : GoStr)
  | blocked
deriving DecidableEq, Repr

/-- Result of one StreamCommand session: final return value, responses
successfully sent, adapter calls made, and log lines emitted. -/
structure StreamOutcome where
  result : StreamResult
  sent : List CommandResponse
  calls : List AdapterCall
  logs : List LogEntry
deriving DecidableEq, Repr

/-- Per-message execution of StreamCommand: the switch on the bound
protocol. Unlike ExecuteCommand this switch has no default case, so an
unrecognized protocol falls through with empty output and a nil error. -/
def streamExec (B : Backend) (st : StreamState) (command : GoStr) :
    CommandResponse × List AdapterCall :=
  let fromRun : GoStr × Option GoStr → CommandResponse := fun r =>
    match r.2 with
    | some execErr => { output := r.1, error := execErr, exitCode := 1 }
    | none => { output := r.1, error := [], exitCode := 0 }
  if st.protocol = gstr ("ssh") then
    (fromRun (B.ssh st.device.hostname st.device.sshPort st.username
        st.password command),
      [.ssh st.device.hostname st.device.sshPort st.username st.password
        command])
  else if st.protocol = gstr ("telnet") then
    (fromRun (B.telnet st.device.hostname st.device.telnetPort st.username
        st.password command),
      [.telnet st.device.hostname st.device.telnetPort st.username
        st.password command])
  else if st.protocol = gstr ("netconf") then
    (fromRun (B.netconf st.device.hostname st.device.netconfPort st.username
        st.password command),
      [.netconf st.device.hostname st.device.netconfPort st.username
        st.password command])
  else
    ({ output := [], error := [], exitCode := 0 }, [])

/-- Receive loop of Server.StreamCommand over a list of events, carrying
the optional session state (none until the first message initializes
it). -/
def streamLoop (cfg : Config) (B : Backend) :
    Option StreamState → List StreamEv → StreamOutcome
  | _, [] => { result := .blocked, sent := [], calls := [], logs := [] }
  | _, .eof :: _ =>
    { result := .ok, sent := [], calls := [],
      logs := [{ fields := [], message := "Stream closed by client" }] }
  | _, .recvErr e :: _ =>
    { result := .recvFailed e, sent := [], calls := [],
      logs := [{ fields := [("error", e)],
                 message := "Error receiving stream" }] }
  | some st, .msg req sendErr :: rest =>
    let rc := streamExec B st req.command
    match sendErr with
    | some e =>
      { result := .sendFailed e, sent := [], calls := rc.2,
        logs := [{ fields := [("error", e)],
                   message := "Error sending stream response" }] }
    | none =>
      let out := streamLoop cfg B (some st) rest
      { result := out.result, sent := rc.1 :: out.sent,
        calls := rc.2 ++ out.calls, logs := out.logs }
  | none, .msg req sendErr :: rest =>
    match getDeviceByFQDN cfg req.fqdn with
    | .error e =>
      { result := .rpcError .notFound e.render, sent := [], calls := [],
        logs := [] }
    | .ok (device, deviceName) =>
      let protocol := if req.protocol = [] then gstr ("ssh") else req.protocol
      let st : StreamState :=
        { device := device, deviceName := deviceName,
          username := req.username, password := req.password,
          protocol := protocol }
      let initLog : LogEntry :=
        { fields := [("device", deviceName), ("username", st.username),
            ("protocol", st.protocol)],
          message := "Stream session initialized" }
      let rc := streamExec B st req.command
      match sendErr with
      | some e =>
        { result := .sendFailed e, sent := [], calls := rc.2,
          logs := [initLog, { fields := [("error", e)],
                              message := "Error sending stream response" }] }
      | none =>
        let out := streamLoop cfg B (some st) rest
        { result := out.result, sent := rc.1 :: out.sent,
          calls := rc.2 ++ out.calls, logs := initLog :: out.logs }

/-- Embedding of Server.StreamCommand of internal/grpc/server.go: the
opening log line followed by the receive loop with no session state. -/
def streamCommand (cfg : Config) (B : Backend) (events : List StreamEv) :
    StreamOutcome :=
  let out := streamLoop cfg B none events
  { out with logs :=
      { fields := [], message := "Starting stream command session" } :: out.logs }

/-- Concrete backend used by witnesses and counterexamples: each adapter
returns a fixed output and no error. -/
def backendEx : Backend :=
  { ssh := fun _ _ _ _ _ => (gstr ("ssh-out"), none),
    telnet := fun _ _ _ _ _ => (gstr ("telnet-out"), none),
    netconf := fun _ _ _ _ _ => (gstr ("netconf-out"), none) }

/-- C2 (amended): on ExecuteCommand a protocol tag of ssh or the empty
string invokes exactly the shell adapter, telnet the line adapter,
netconf the config adapter, and any other tag is rejected with
invalid-argument with no adapter invoked; on StreamCommand the bound tag
dispatches the same way and the empty tag is bound to ssh at session
initialization, but an unrecognized bound tag is NOT rejected: no
adapter is invoked and an empty response with exit code 0 is produced. -/
theorem protocol_dispatch (cfg : Config) (B : Backend) (req : CommandRequest)
    (device : DeviceConfig) (deviceName : GoStr)
    (h1 : req.fqdn ≠ []) (h2 : req.username ≠ [])
    (h3 : req.password ≠ []) (h4 : req.command ≠ [])
    (hres : getDeviceByFQDN cfg req.fqdn = .ok (device, deviceName)) :
    ((req.protocol = gstr ("ssh") ∨ req.protocol = []) →
      (executeCommand cfg B req).calls =
        [.ssh device.hostname device.sshPort req.username req.password
          req.command]) ∧
    (req.protocol = gstr ("telnet") →
      (executeCommand cfg B req).calls =
        [.telnet device.hostname device.telnetPort req.username req.password
          req.command]) ∧
    (req.protocol = gstr ("netconf") →
      (executeCommand cfg B req).calls =
        [.netconf device.hostname device.netconfPort req.username
          req.password req.command]) ∧
    (req.protocol ≠ gstr ("ssh") → req.protocol ≠ [] →
      req.protocol ≠ gstr ("telnet") → req.protocol ≠ gstr ("netconf") →
      (executeCommand cfg B req).result =
        .error (.invalidArgument,
          gstr ("unsupported protocol: ") ++ req.protocol) ∧
      (executeCommand cfg B req).calls = []) ∧
    (∀ st cmd, st.protocol = gstr ("ssh") →
      (streamExec B st cmd).2 =
        [.ssh st.device.hostname st.device.sshPort st.username st.password
          cmd]) ∧
    (∀ st cmd, st.protocol = gstr ("telnet") →
      (streamExec B st cmd).2 =
        [.telnet st.device.hostname st.device.telnetPort st.username
          st.password cmd]) ∧
    (∀ st cmd, st.protocol = gstr ("netconf") →
      (streamExec B st cmd).2 =
        [.netconf st.device.hostname st.device.netconfPort st.username
          st.password cmd]) ∧
    (∀ st cmd, st.protocol ≠ gstr ("ssh") → st.protocol ≠ gstr ("telnet") →
      st.protocol ≠ gstr ("netconf") →
      streamExec B st cmd = ({ output := [], error := [], exitCode := 0 }, [])) ∧
    (req.protocol = [] → ∀ rest,
      (streamCommand cfg B (.msg req none :: rest)).calls =
        .ssh device.hostname device.sshPort req.username req.password
          req.command ::
        (streamLoop cfg B
          (some ⟨device, deviceName, req.username, req.password,
            gstr ("ssh")⟩) rest).calls) := by
  refine ⟨?_, ?_, ?_, ?_, ?_, ?_, ?_, ?_, ?_⟩
  · rintro (hp | hp) <;>
      simp [executeCommand, selectCall, h1, h2, h3, h4, hres, hp, Backend.run]
  · intro hp
    have hp1 : req.protocol ≠ gstr ("ssh") := by
      rw [hp]; decide
    have hp2 : req.protocol ≠ [] := by
      rw [hp]; decide
    have hc1 : ¬(gstr ("telnet") = gstr ("ssh") ∨ gstr ("telnet") = []) := by
      decide
    simp [executeCommand, selectCall, h1, h2, h3, h4, hres, hp, hp1, hp2, hc1,
      Backend.run]
  · intro hp
    have hp1 : req.protocol ≠ gstr ("ssh") := by
      rw [hp]; decide
    have hp2 : req.protocol ≠ [] := by
      rw [hp]; decide
    have hp3 : req.protocol ≠ gstr ("telnet") := by
      rw [hp]; decide
    have hc1 : ¬(gstr ("netconf") = gstr ("ssh") ∨ gstr ("netconf") = []) := by
      decide
    have hc2 : gstr ("netconf") ≠ gstr ("telnet") := by decide
    simp [executeCommand, selectCall, h1, h2, h3, h4, hres, hp, hp1, hp2, hp3,
      hc1, hc2, Backend.run]
  · intro hp1 hp2 hp3 hp4
    constructor <;>
      simp [executeCommand, selectCall, h1, h2, h3, h4, hres, hp1, hp2, hp3,
        hp4]
  · intro st cmd hp
    simp [streamExec, hp]
  · intro st cmd hp
    have hc1 : gstr ("telnet") ≠ gstr ("ssh") := by decide
    simp [streamExec, hp, hc1]
  · intro st cmd hp
    have hc1 : gstr ("netconf") ≠ gstr ("ssh") := by decide
    have hc2 : gstr ("netconf") ≠ gstr ("telnet") := by decide
    simp [streamExec, hp, hc1, hc2]
  · intro st cmd hp1 hp2 hp3
    simp [streamExec, hp1, hp2, hp3]
  · intro hp rest
    simp [streamCommand, streamLoop, hres, hp, streamExec]

/-- Witness for C2 at concrete inputs: a request with protocol telnet
makes exactly one line-adapter call. -/
theorem protocol_dispatch_witness :
    (executeCommand cfgEx backendEx
      ⟨gstr ("srl1.example.com"), gstr ("admin"), gstr ("pw"),
        gstr ("show version"), gstr ("telnet")⟩).calls =
    [.telnet (gstr ("10.0.1.10")) 23 (gstr ("admin")) (gstr ("pw"))
      (gstr ("show version"))] := by
  have h := (protocol_dispatch cfgEx backendEx
    ⟨gstr ("srl1.example.com"), gstr ("admin"), gstr ("pw"),
      gstr ("show version"), gstr ("telnet")⟩
    devEx (gstr ("srl1")) (by decide) (by decide) (by decide) (by decide)
    (by decide)).2.1 (by decide)
  simpa [devEx] using h

/-- Counterexample for C2 as stated: a StreamCommand session whose first
message carries the unrecognized protocol tag bogus is not rejected with
invalid-argument; the session succeeds, sends an empty response with
exit code 0 and never invokes an adapter. -/
theorem protocol_dispatch_counterexample :
    streamCommand cfgEx backendEx
      [.msg ⟨gstr ("srl1.example.com"), gstr ("admin"), gstr ("pw"),
        gstr ("show version"), gstr ("bogus")⟩ none, .eof] =
    { result := .ok,
      sent := [{ output := [], error := [], exitCode := 0 }],
      calls := [],
      logs := [{ fields := [], message := "Starting stream command session" },
        { fields := [("device", gstr ("srl1")),
            ("username", gstr ("admin")), ("protocol", gstr ("bogus"))],
          message := "Stream session initialized" },
        { fields := [], message := "Stream closed by client" }] } := by
  decide

/-- Backend dial target computed by the gNMI proxy: hostname, gNMI port
and the per-RPC credential metadata. -/
structure BackendTarget where
  hostname : GoStr
  port : Int
  username : GoStr
  password : GoStr
deriving DecidableEq, Repr

/-- Embedding of Server.getTargetFromContext of the gNMI proxy: the
metadata header x-gnmi-target wins, then a nonempty target on the prefix
path, else the no-target error. -/
def getTargetFromContext (md : Option GoStr) (prefixT : Option GoStr) :
    Except GoStr GnmiTarget :=
  match md with
  | some t => parseTarget t
  | none =>
    match prefixT with
    | some t =>
      if t = [] then .error (gstr ("no target specified in metadata or prefix"))
      else parseTarget t
    | none => .error (gstr ("no target specified in metadata or prefix"))

/-- Embedding of Server.getBackendClient of the gNMI proxy: resolves the
FQDN through the registry (wrapping a failure in a device-not-found
error), then computes the backend gNMI port, defaulting to 57400 unless
the stored port is positive. -/
def getBackendClient (cfg : Config) (fqdn username password : GoStr) :
    Except GoStr BackendTarget :=
  match getDeviceByFQDN cfg fqdn with
  | .error e => .error (gstr ("device not found: ") ++ e.render)
  | .ok (device, _deviceName) =>
    let gnmiPort : Int := if device.gnmiPort > 0 then device.gnmiPort else 57400
    .ok { hostname := device.hostname, port := gnmiPort,
          username := username, password := password }

/-- Embedding of Server.Capabilities of the gNMI proxy, generic in the
backend response type: target extraction failure surfaces as
invalid-argument, backend client failure as unavailable, and otherwise
the backend RPC result is returned verbatim. Capabilities passes a nil
prefix to target extraction. -/
def gnmiCapabilities {α : Type} (cfg : Config) (md : Option GoStr)
    (bk : BackendTarget → α) : Except (RpcCode × GoStr) α :=
  match getTargetFromContext md none with
  | .error e => .error (.invalidArgument, e)
  | .ok t =>
    match getBackendClient cfg t.fqdn t.username t.password with
    | .error e => .error (.unavailable, e)
    | .ok target => .ok (bk target)

/-- Embedding of Server.Get of the gNMI proxy; the request prefix target
participates in target extraction. -/
def gnmiGet {α : Type} (cfg : Config) (md prefixT : Option GoStr)
    (bk : BackendTarget → α) : Except (RpcCode × GoStr) α :=
  match getTargetFromContext md prefixT with
  | .error e => .error (.invalidArgument, e)
  | .ok t =>
    match getBackendClient cfg t.fqdn t.username t.password with
    | .error e => .error (.unavailable, e)
    | .ok target => .ok (bk target)

/-- Embedding of Server.Set of the gNMI proxy; same shape as Get. -/
def gnmiSet {α : Type} (cfg : Config) (md prefixT : Option GoStr)
    (bk : BackendTarget → α) : Except (RpcCode × GoStr) α :=
  match getTargetFromContext md prefixT with
  | .error e => .error (.invalidArgument, e)
  | .ok t =>
    match getBackendClient cfg t.fqdn t.username t.password with
    | .error e => .error (.unavailable, e)
    | .ok target => .ok (bk target)

/-- One event of the client-to-backend pump of Subscribe: a request
received from the client (with the outcome of forwarding it to the
backend), client end-of-stream, or a receive error. -/
inductive ClientEv where
  | recv (m : GoStr) (sendErr : Option GoStr)
  | recvEOF
  | recvErr (e : GoStr)
deriving DecidableEq, Repr

/-- One event of the backend-to-client pump of Subscribe: a response
received from the backend (with the outcome of forwarding it to the
client), backend end-of-stream, or a receive error. -/
inductive BackendEv where
  | recv (m : GoStr) (sendErr : Option GoStr)
  | recvEOF
  | recvErr (e : GoStr)
deriving DecidableEq, Repr

/-- Value a pump places on the completion channel: nil on backend
end-of-stream, or the error it hit. -/
inductive PumpReport where
  | eos
  | fail (e : GoStr)
deriving DecidableEq, Repr

/-- Result of the client-to-backend pump goroutine of Subscribe: its
optional completion-channel report, whether it half-closed the backend
via CloseSend, and the requests it forwarded. On client end-of-stream it
half-closes the backend and returns without reporting. -/
structure ClientPumpOut where
  report : Option PumpReport
  closeSendCalled : Bool
  forwarded : List GoStr
deriving DecidableEq, Repr

/-- The client-to-backend pump loop of Subscribe. -/
def clientPump : List ClientEv → ClientPumpOut
  | [] => { report := none, closeSendCalled := false, forwarded := [] }
  | .recvEOF :: _ => { report := none, closeSendCalled := true, forwarded := [] }
  | .recvErr e :: _ =>
    { report := some (.fail e), closeSendCalled := false, forwarded := [] }
  | .recv _ (some e) :: _ =>
    { report := some (.fail e), closeSendCalled := false, forwarded := [] }
  | .recv m none :: rest =>
    let out := clientPump rest
    { out with forwarded := m :: out.forwarded }

/-- Result of the backend-to-client pump goroutine of Subscribe: its
optional completion-channel report (nil on backend end-of-stream) and
the responses it forwarded to the client. -/
structure BackendPumpOut where
  report : Option PumpReport
  forwarded : List GoStr
deriving DecidableEq, Repr

/-- The backend-to-client pump loop of Subscribe. -/
def backendPump : List BackendEv → BackendPumpOut
  | [] => { report := none, forwarded := [] }
  | .recvEOF :: _ => { report := some .eos, forwarded := [] }
  | .recvErr e :: _ => { report := some (.fail e), forwarded := [] }
  | .recv _ (some e) :: _ => { report := some (.fail e), forwarded := [] }
  | .recv m none :: rest =>
    let out := backendPump rest
    { out with forwarded := m :: out.forwarded }

/-- First value received on the two-slot completion channel, as a
function of the two pump reports; when both pumps report, the boolean
schedule says whose report was enqueued first. -/
def firstReport (clientFirst : Bool) :
    Option PumpReport → Option PumpReport → Option PumpReport
  | some a, some b => some (if clientFirst then a else b)
  | some a, none => some a
  | none, r => r

/-- Return value of the Subscribe RPC: nil, a gRPC status error from the
prelude, a raw pump error returned as-is, or blocked when neither pump
ever reports. -/
inductive SubscribeResult where
  | ok
  | statusErr (code : RpcCode) (msg : GoStr)
  | rawErr (e : GoStr)
  | blocked
deriving DecidableEq, Repr

/-- Observable outcome of one Subscribe call: the return value, whether
the backend connection was closed (the deferred conn.Close), whether the
backend stream was half-closed, and the messages forwarded each way
(first element of sentToBackend is the forwarded initial request). -/
@[ext] structure SubscribeOutcome where
  result : SubscribeResult
  connClosed : Bool
  closeSendCalled : Bool
  sentToBackend : List GoStr
  sentToClient : List GoStr
deriving DecidableEq, Repr

/-- First message of a Subscribe stream: its payload and, when its
subscribe descriptor carries a prefix, the target string of that
prefix. -/
structure FirstMsg where
  payload : GoStr
  prefixT : Option GoStr
deriving DecidableEq, Repr

/-- Embedding of Server.Subscribe of the gNMI proxy: receive the first
message (failure: invalid-argument), extract the target from metadata or
the subscribe prefix (failure: invalid-argument), open the backend
client (failure: unavailable, before the connection exists), then with
the deferred conn.Close armed, open the backend subscribe stream and
forward the first message (failures: internal), spawn the two pumps and
return the first report from the completion channel; nil reports
(backend end-of-stream) complete the RPC successfully and pump errors
are returned as-is. -/
def gnmiSubscribe (cfg : Config) (md : Option GoStr)
    (firstRecv : Option FirstMsg) (backendSubscribeErr : Option GoStr)
    (initialSendErr : Option GoStr) (clientEvs : List ClientEv)
    (backendEvs : List BackendEv) (clientFirst : Bool) : SubscribeOutcome :=
  match firstRecv with
  | none =>
    { result := .statusErr .invalidArgument
        (gstr ("failed to receive subscription request")),
      connClosed := false, closeSendCalled := false,
      sentToBackend := [], sentToClient := [] }
  | some first =>
    match getTargetFromContext md first.prefixT with
    | .error e =>
      { result := .statusErr .invalidArgument e, connClosed := false,
        closeSendCalled := false, sentToBackend := [], sentToClient := [] }
    | .ok t =>
      match getBackendClient cfg t.fqdn t.username t.password with
      | .error e =>
        { result := .statusErr .unavailable e, connClosed := false,
          closeSendCalled := false, sentToBackend := [], sentToClient := [] }
      | .ok _target =>
        match backendSubscribeErr with
        | some e =>
          { result := .statusErr .internalErr
              (gstr ("failed to create backend subscription: ") ++ e),
            connClosed := true, closeSendCalled := false,
            sentToBackend := [], sentToClient := [] }
        | none =>
          match initialSendErr with
          | some e =>
            { result := .statusErr .internalErr
                (gstr ("failed to send to backend: ") ++ e),
              connClosed := true, closeSendCalled := false,
              sentToBackend := [], sentToClient := [] }
          | none =>
            let cp := clientPump clientEvs
            let bp := backendPump backendEvs
            { result :=
                match firstReport clientFirst cp.report bp.report with
                | some .eos => .ok
                | some (.fail e) => .rawErr e
                | none => .blocked,
              connClosed := true, closeSendCalled := cp.closeSendCalled,
              sentToBackend := first.payload :: cp.forwarded,
              sentToClient := bp.forwarded }

/-- Device entry with all ports stored as zero, used to exhibit port
forwarding behavior. -/
def devZero : DeviceConfig :=
  { hostname := gstr ("10.0.0.9"), sshPort := 0, telnetPort := 0,
    netconfPort := 0, gnmiPort := 0, description := [] }

/-- Registry holding only the all-zero-ports device. -/
def cfgZero : Config := { devices := [(gstr ("r0"), devZero)] }

/-- C3 (amended): only the telemetry backend port is defaulted: the gNMI
proxy dials the stored gNMI port when it is positive and 57400
otherwise, so the dialed telemetry port is always positive; the shell,
line and config adapters instead receive the stored port verbatim,
including a stored 0. -/
theorem backend_port_defaulting (cfg : Config) (fqdn u p : GoStr)
    (device : DeviceConfig) (deviceName : GoStr) (req : CommandRequest)
    (hres : getDeviceByFQDN cfg fqdn = .ok (device, deviceName)) :
    (getBackendClient cfg fqdn u p =
      .ok ⟨device.hostname,
        if device.gnmiPort > 0 then device.gnmiPort else 57400, u, p⟩) ∧
    (0 < if device.gnmiPort > 0 then device.gnmiPort else (57400 : Int)) ∧
    ((req.protocol = gstr ("ssh") ∨ req.protocol = []) →
      selectCall device req = some (.ssh device.hostname device.sshPort
        req.username req.password req.command)) ∧
    (req.protocol = gstr ("telnet") →
      selectCall device req = some (.telnet device.hostname device.telnetPort
        req.username req.password req.command)) ∧
    (req.protocol = gstr ("netconf") →
      selectCall device req = some (.netconf device.hostname
        device.netconfPort req.username req.password req.command)) := by
  refine ⟨?_, ?_, ?_, ?_, ?_⟩
  · simp [getBackendClient, hres]
  · by_cases h : device.gnmiPort > 0
    · simp only [if_pos h]
      exact h
    · simp [h]
  · rintro (hp | hp) <;> simp [selectCall, hp]
  · intro hp
    have hc1 : ¬(gstr ("telnet") = gstr ("ssh") ∨ gstr ("telnet") = []) := by
      decide
    simp [selectCall, hp, hc1]
  · intro hp
    have hc1 : ¬(gstr ("netconf") = gstr ("ssh") ∨ gstr ("netconf") = []) := by
      decide
    have hc2 : gstr ("netconf") ≠ gstr ("telnet") := by decide
    simp [selectCall, hp, hc1, hc2]

/-- Witness for C3 at concrete inputs: a stored gNMI port of 0 is dialed
as 57400 by the gNMI proxy. -/
theorem backend_port_defaulting_witness :
    getBackendClient cfgZero (gstr ("r0.example.com")) (gstr ("admin"))
      (gstr ("pw")) =
    .ok ⟨gstr ("10.0.0.9"), 57400, gstr ("admin"), gstr ("pw")⟩ := by
  have h := (backend_port_defaulting cfgZero (gstr ("r0.example.com"))
    (gstr ("admin")) (gstr ("pw")) devZero (gstr ("r0"))
    ⟨[], [], [], [], []⟩ (by decide)).1
  simpa [devZero] using h

/-- Counterexample for C3 as stated: an entry whose shell port is stored
as 0 makes ExecuteCommand invoke the shell adapter with port 0, not with
the claimed default 22; the stored 0 is forwarded as the backend port. -/
theorem backend_port_defaulting_counterexample :
    (executeCommand cfgZero backendEx
      ⟨gstr ("r0.example.com"), gstr ("admin"), gstr ("pw"),
        gstr ("show version"), []⟩).calls =
      [.ssh (gstr ("10.0.0.9")) 0 (gstr ("admin")) (gstr ("pw"))
        (gstr ("show version"))] ∧
    (0 : Int) ≠ 22 := by
  decide

/-- C5 (amended): a failed registry resolution of the target FQDN
surfaces as a not-found RPC error on ExecuteCommand and on StreamCommand,
but on the four telemetry proxy RPCs Capabilities, Get, Set and
Subscribe it surfaces as an unavailable RPC error carrying the wrapped
device-not-found message. -/
theorem resolve_failure_status (cfg : Config) (B : Backend)
    (req : CommandRequest) (e e2 : ResolveErr) (targ : GoStr) (t : GnmiTarget)
    (h1 : req.fqdn ≠ []) (h2 : req.username ≠ []) (h3 : req.password ≠ [])
    (h4 : req.command ≠ [])
    (hres : getDeviceByFQDN cfg req.fqdn = .error e)
    (hpt : parseTarget targ = .ok t)
    (hrt : getDeviceByFQDN cfg t.fqdn = .error e2) :
    ((executeCommand cfg B req).result = .error (.notFound, e.render)) ∧
    (∀ se rest, (streamCommand cfg B (.msg req se :: rest)).result =
      .rpcError .notFound e.render) ∧
    (∀ (α : Type) (bk : BackendTarget → α),
      gnmiCapabilities cfg (some targ) bk =
        .error (.unavailable, gstr ("device not found: ") ++ e2.render)) ∧
    (∀ (α : Type) (prefixT : Option GoStr) (bk : BackendTarget → α),
      gnmiGet cfg (some targ) prefixT bk =
        .error (.unavailable, gstr ("device not found: ") ++ e2.render)) ∧
    (∀ (α : Type) (prefixT : Option GoStr) (bk : BackendTarget → α),
      gnmiSet cfg (some targ) prefixT bk =
        .error (.unavailable, gstr ("device not found: ") ++ e2.render)) ∧
    (∀ fm se ie ce be cf,
      (gnmiSubscribe cfg (some targ) (some fm) se ie ce be cf).result =
        .statusErr .unavailable
          (gstr ("device not found: ") ++ e2.render)) := by
  refine ⟨?_, ?_, ?_, ?_, ?_, ?_⟩
  · simp [executeCommand, h1, h2, h3, h4, hres]
  · intro se rest
    simp [streamCommand, streamLoop, hres]
  · intro α bk
    simp [gnmiCapabilities, getTargetFromContext, getBackendClient, hpt, hrt]
  · intro α prefixT bk
    simp [gnmiGet, getTargetFromContext, getBackendClient, hpt, hrt]
  · intro α prefixT bk
    simp [gnmiSet, getTargetFromContext, getBackendClient, hpt, hrt]
  · intro fm se ie ce be cf
    simp [gnmiSubscribe, getTargetFromContext, getBackendClient, hpt, hrt]

/-- Witness for C5 at concrete inputs: an unknown device name makes
ExecuteCommand fail with not-found. -/
theorem resolve_failure_status_witness :
    (executeCommand cfgEx backendEx
      ⟨gstr ("nope.example.com"), gstr ("admin"), gstr ("pw"),
        gstr ("show version"), gstr ("ssh")⟩).result =
      .error (.notFound, gstr ("device not found: nope")) := by
  have h := (resolve_failure_status cfgEx backendEx
    ⟨gstr ("nope.example.com"), gstr ("admin"), gstr ("pw"),
      gstr ("show version"), gstr ("ssh")⟩
    (.notFound (gstr ("nope"))) (.notFound (gstr ("nope")))
    (gstr ("nope.example.com"))
    ⟨gstr ("nope.example.com"), gstr ("admin"), gstr ("NokiaSrl1!")⟩
    (by decide) (by decide) (by decide) (by decide)
    (by decide) (by decide) (by decide)).1
  simpa [ResolveErr.render] using h

/-- Counterexample for C5 as stated: a telemetry Capabilities call whose
target FQDN fails registry resolution returns the unavailable status,
not the claimed not-found. -/
theorem resolve_failure_status_counterexample :
    gnmiCapabilities cfgEx (some (gstr ("nope.example.com"))) (fun _ => (0 : Nat)) =
      .error (.unavailable,
        gstr ("device not found: device not found: nope")) ∧
    RpcCode.unavailable ≠ RpcCode.notFound := by
  decide

/-- C6 (amended): the dispatcher log output is independent of the
secret for requests that pass the password-presence validation: two
ExecuteCommand requests that differ only in the (nonempty) password
field, served against backends whose observable adapter results agree on
the two passwords, produce identical log line sequences; in particular
no logged field is derived from the password. Requests whose passwords
differ in emptiness are rejected at different validation steps and log
differently, which is the only exception. -/
theorem secret_noninterference (cfg : Config) (B B2 : Backend)
    (req : CommandRequest) (pw : GoStr)
    (hp1 : req.password ≠ []) (hp2 : pw ≠ [])
    (hssh : ∀ h pt u c, B.ssh h pt u req.password c = B2.ssh h pt u pw c)
    (htel : ∀ h pt u c, B.telnet h pt u req.password c = B2.telnet h pt u pw c)
    (hnet : ∀ h pt u c,
      B.netconf h pt u req.password c = B2.netconf h pt u pw c) :
    (executeCommand cfg B req).logs =
      (executeCommand cfg B2 { req with password := pw }).logs := by
  simp only [executeCommand, hp1, hp2]
  by_cases hf : req.fqdn = []
  · simp [hf]
  · simp only [hf, if_false, ite_false]
    by_cases hu : req.username = []
    · simp [hu]
    · simp only [hu, if_false, ite_false, hp1, hp2]
      by_cases hc : req.command = []
      · simp [hc]
      · simp only [hc, if_false, ite_false]
        cases hres : getDeviceByFQDN cfg req.fqdn with
        | error e => simp [hres]
        | ok dv =>
          obtain ⟨device, deviceName⟩ := dv
          simp only [hres, selectCall]
          by_cases hps : req.protocol = gstr ("ssh") ∨ req.protocol = []
          · simp [hps, Backend.run, hssh]
          · simp only [hps, if_false, ite_false]
            by_cases hpt : req.protocol = gstr ("telnet")
            · simp [hpt, Backend.run, htel]
            · simp only [hpt, if_false, ite_false]
              by_cases hpn : req.protocol = gstr ("netconf")
              · simp [hpn, Backend.run, hnet]
              · simp [hpn]

/-- Witness for C6 at concrete inputs: two requests differing only in
their nonempty passwords emit the same log lines. -/
theorem secret_noninterference_witness :
    (executeCommand cfgEx backendEx
      ⟨gstr ("srl1.example.com"), gstr ("admin"), gstr ("hunter2"),
        gstr ("show version"), gstr ("ssh")⟩).logs =
    (executeCommand cfgEx backendEx
      ⟨gstr ("srl1.example.com"), gstr ("admin"), gstr ("swordfish"),
        gstr ("show version"), gstr ("ssh")⟩).logs := by
  exact secret_noninterference cfgEx backendEx backendEx
    ⟨gstr ("srl1.example.com"), gstr ("admin"), gstr ("hunter2"),
      gstr ("show version"), gstr ("ssh")⟩
    (gstr ("swordfish")) (by decide) (by decide)
    (fun _ _ _ _ => rfl) (fun _ _ _ _ => rfl) (fun _ _ _ _ => rfl)

/-- Counterexample for C6 as stated: two requests differing only in the
password, one empty and one not, emit different log line sequences (the
empty one is rejected after the entry log; the other proceeds to the
routing and success logs), so the log output is not identical for every
pair of requests differing only in the password field. No log line
contains the secret in either run. -/
theorem secret_noninterference_counterexample :
    (executeCommand cfgEx backendEx
      ⟨gstr ("srl1.example.com"), gstr ("admin"), gstr (""),
        gstr ("show version"), gstr ("ssh")⟩).logs ≠
    (executeCommand cfgEx backendEx
      ⟨gstr ("srl1.example.com"), gstr ("admin"), gstr ("pw"),
        gstr ("show version"), gstr ("ssh")⟩).logs := by
  decide

/-- Client pump behavior on a clean inbound stream: after forwarding
every message it reaches end-of-stream, half-closes the backend via
CloseSend and returns without placing anything on the completion
channel. -/
theorem clientPump_eof (ms : List GoStr) :
    clientPump (ms.map (fun m => ClientEv.recv m none) ++ [ClientEv.recvEOF]) =
      { report := none, closeSendCalled := true, forwarded := ms } := by
  induction ms with
  | nil => rfl
  | cons m rest ih => simp [clientPump, ih]

/-- C7: once the Subscribe prelude has succeeded, the RPC returns
exactly the interpretation of the first report placed on the completion
channel by the two pumps: a backend end-of-stream report completes the
RPC successfully, a pump error is propagated as-is, and no report means
the RPC is still blocked; the client pump merely unwinds on client
end-of-stream (it half-closes the backend and reports nothing); and the
backend connection is closed unconditionally on every return reached
after it was opened. -/
theorem subscribe_termination (cfg : Config) (md : Option GoStr)
    (fm : FirstMsg) (t : GnmiTarget) (target : BackendTarget)
    (ce : List ClientEv) (be : List BackendEv) (cf : Bool)
    (ht : getTargetFromContext md fm.prefixT = .ok t)
    (hb : getBackendClient cfg t.fqdn t.username t.password = .ok target) :
    ((gnmiSubscribe cfg md (some fm) none none ce be cf).result =
      match firstReport cf (clientPump ce).report (backendPump be).report with
      | some .eos => .ok
      | some (.fail e) => .rawErr e
      | none => .blocked) ∧
    ((backendPump be).report = some .eos → (clientPump ce).report = none →
      (gnmiSubscribe cfg md (some fm) none none ce be cf).result = .ok) ∧
    (∀ e, firstReport cf (clientPump ce).report (backendPump be).report =
        some (.fail e) →
      (gnmiSubscribe cfg md (some fm) none none ce be cf).result = .rawErr e) ∧
    ((gnmiSubscribe cfg md (some fm) none none ce be cf).closeSendCalled =
      (clientPump ce).closeSendCalled) ∧
    ((gnmiSubscribe cfg md (some fm) none none ce be cf).sentToBackend =
      fm.payload :: (clientPump ce).forwarded) ∧
    ((gnmiSubscribe cfg md (some fm) none none ce be cf).sentToClient =
      (backendPump be).forwarded) ∧
    (∀ se ie ce2 be2 cf2,
      (gnmiSubscribe cfg md (some fm) se ie ce2 be2 cf2).connClosed = true) ∧
    (∀ ms, clientPump
        (ms.map (fun m => ClientEv.recv m none) ++ [ClientEv.recvEOF]) =
      { report := none, closeSendCalled := true, forwarded := ms }) := by
  refine ⟨?_, ?_, ?_, ?_, ?_, ?_, ?_, clientPump_eof⟩
  · simp [gnmiSubscribe, ht, hb]
  · intro hbe hce
    simp [gnmiSubscribe, ht, hb, hbe, hce, firstReport]
  · intro e he
    simp [gnmiSubscribe, ht, hb, he]
  · simp [gnmiSubscribe, ht, hb]
  · simp [gnmiSubscribe, ht, hb]
  · simp [gnmiSubscribe, ht, hb]
  · intro se ie ce2 be2 cf2
    cases se <;> cases ie <;> simp [gnmiSubscribe, ht, hb]

/-- Witness for C7 at concrete inputs: a session where the client sends
one message and half-closes while the backend streams two responses and
ends cleanly completes the RPC successfully, half-closes the backend,
forwards both directions in full and closes the connection. -/
theorem subscribe_termination_witness :
    gnmiSubscribe cfgEx (some (gstr ("srl1.example.com:admin:pw")))
      (some ⟨gstr ("sub-req"), none⟩) none none
      [.recv (gstr ("poll")) none, .recvEOF]
      [.recv (gstr ("update1")) none, .recv (gstr ("update2")) none, .recvEOF]
      true =
    { result := .ok, connClosed := true, closeSendCalled := true,
      sentToBackend := [gstr ("sub-req"), gstr ("poll")],
      sentToClient := [gstr ("update1"), gstr ("update2")] } := by
  have h := subscribe_termination cfgEx
    (some (gstr ("srl1.example.com:admin:pw"))) ⟨gstr ("sub-req"), none⟩
    ⟨gstr ("srl1.example.com"), gstr ("admin"), gstr ("pw")⟩
    ⟨gstr ("10.0.1.10"), 57400, gstr ("admin"), gstr ("pw")⟩
    [.recv (gstr ("poll")) none, .recvEOF]
    [.recv (gstr ("update1")) none, .recv (gstr ("update2")) none, .recvEOF]
    true (by decide) (by decide)
  obtain ⟨h1, _, _, h4, h5, h6, h7, _⟩ := h
  have hcc := h7 none none
    [ClientEv.recv (gstr ("poll")) none, ClientEv.recvEOF]
    [BackendEv.recv (gstr ("update1")) none,
      BackendEv.recv (gstr ("update2")) none, BackendEv.recvEOF] true
  refine SubscribeOutcome.ext ?_ ?_ ?_ ?_ ?_
  · rw [h1]; decide
  · rw [hcc]
  · rw [h4]; decide
  · rw [h5]; decide
  · rw [h6]; decide
